import Mathlib

/-!
Shallow embedding of `src/main/python/dlfa/solvers/pretraining/pretrainer.py`
(the `Pretrainer` class) and proofs of the specification claims about it.

Conventions of the embedding:
* Python object state becomes explicit state passing: methods that mutate
  `self` return an updated `Pretrainer` record.
* Fallible code returns `Except PretrainError`; `raise NotImplementedError`
  in the abstract methods becomes `.error (.notImplemented _)`, and the
  out-of-bounds access `inputs[0]` on an empty list becomes
  `.error .indexError`.
* Floats are embedded as `Rat` (the only float operations in the source are
  the literal defaults `30`, `.1`, `3` and the comparison `> 0.0`, all exact).
* numpy arrays are opaque atoms of a type parameter `α`; a list of such
  atoms stands for the array `numpy.asarray` builds from a Python list
  (its i-th row is the i-th list element).
* External collaborators (the dataset/indexing pipeline, Keras) enter as
  parameters; the Keras fit loop and in-place layer mutation, which are not
  part of the source file, are modelled from the spec where a claim needs
  them (see the `Modelled from the spec` doc comments).
-/

deriving instance DecidableEq for Except

namespace DeepQA

/-- Errors the embedded code can signal: `NotImplementedError` raised by an
abstract method (tagged with the method name), and the `IndexError` from an
out-of-bounds list access. -/
inductive PretrainError where
  | notImplemented : String → PretrainError
  | indexError : PretrainError
deriving DecidableEq, Repr

/-- One training example's input, as produced by
`indexed_dataset.as_training_data()`: either a single (opaque) array or a
tuple of arrays, matching the `isinstance(inputs[0], tuple)` dichotomy in
`Pretrainer.train`. -/
inductive ExampleInput (α : Type) where
  | single : α → ExampleInput α
  | tuple : List α → ExampleInput α
deriving DecidableEq, Repr

/-- Whether this example input is a Python tuple (the `isinstance(_, tuple)`
test in `train`). -/
def ExampleInput.isTuple : ExampleInput α → Bool
  | .single _ => false
  | .tuple _ => true

/-- Iterating an example input, as `zip(*inputs)` does: a tuple yields its
component arrays.  Arrays are opaque atoms in this embedding, so iterating a
non-tuple input is modelled as yielding the atom itself; this case is
unreachable in the branch that uses `parts` whenever the inputs are
homogeneous (every theorem below that touches the tuple branch assumes all
inputs are tuples, which is the only shape the repository feeds it). -/
def ExampleInput.parts : ExampleInput α → List α
  | .single a => [a]
  | .tuple l => l

/-- Model of Python's `zip(*rows)` (the `zip(*inputs)` in `train`): the
result is truncated to the shortest row, and its j-th element collects the
j-th entry of every row, in row order.  The `Inhabited` default of `getD` is
never consulted: every access has `j <` the minimum row length. -/
def pyMinLen (rows : List (List α)) : Nat :=
  match rows with
  | [] => 0
  | r :: rs => rs.foldl (fun m l => min m l.length) r.length

/-- Model of Python's `zip(*rows)`; see `pyMinLen`. -/
def pyZipStar [Inhabited α] (rows : List (List α)) : List (List α) :=
  (List.range (pyMinLen rows)).map (fun j => rows.map (fun r => r.getD j default))

/-- Result of the input-shaping step of `train`: either the single
contiguous array `numpy.asarray(inputs)` (whose i-th row is the i-th
example's input, unchanged) or the list of per-slot arrays
`[numpy.asarray(x) for x in zip(*inputs)]`. -/
inductive ShapedInputs (α : Type) where
  | one : List (ExampleInput α) → ShapedInputs α
  | many : List (List α) → ShapedInputs α
deriving DecidableEq, Repr

/-- Which routing branch the shaping step took. -/
def ShapedInputs.isMany : ShapedInputs α → Bool
  | .one _ => false
  | .many _ => true

/-- Embedding of the input-shaping step of `Pretrainer.train`:

    if isinstance(inputs[0], tuple):
        inputs = [numpy.asarray(x) for x in zip(*inputs)]
    else:
        inputs = numpy.asarray(inputs)

`inputs[0]` on an empty list raises `IndexError`. -/
def shapeInputs [Inhabited α] (inputs : List (ExampleInput α)) :
    Except PretrainError (ShapedInputs α) :=
  match inputs with
  | [] => .error .indexError
  | first :: _ =>
    if first.isTuple then
      .ok (.many (pyZipStar (inputs.map ExampleInput.parts)))
    else
      .ok (.one inputs)

/-- Embedding of `labels = numpy.asarray(labels)`: the array's i-th element
is the i-th label, so as a list of rows it is the label list itself. -/
def shapeLabels (labels : List β) : List β := labels

/-- The `EarlyStopping(monitor='val_loss', patience=self.patience)` callback
object constructed in `train`, by its two constructor arguments. -/
structure EarlyStoppingCallback where
  monitor : String
  patience : Nat
deriving DecidableEq, Repr

/-- The keyword arguments `train` hands to `model.fit`: `nb_epoch` is always
present; `validation_split` and `callbacks` are present only when the
corresponding `if` in the source adds them. -/
structure FitKwargs where
  nb_epoch : Nat
  validation_split : Option Rat
  callbacks : Option (List EarlyStoppingCallback)
deriving DecidableEq, Repr

/-- The arguments of `model.compile(loss=self.loss, optimizer='adam',
metrics=['accuracy'])`. -/
structure CompileArgs where
  loss : String
  optimizer : String
  metrics : List String
deriving DecidableEq, Repr

/-- State of a `Pretrainer` instance (`self`).  `solver` is carried by the
collaborator parameters of `train` rather than stored here, because this
file never inspects it apart from the calls `train` makes.  `loadCalls` is a
ghost instrumentation field counting invocations of `_load_dataset`; no
embedded operation ever reads it. -/
structure Pretrainer (δ : Type) where
  num_epochs : Nat
  validation_split : Rat
  early_stopping : Bool
  patience : Nat
  loss : String
  dataset : Option δ
  loadCalls : Nat
deriving DecidableEq, Repr

/-- Embedding of `Pretrainer.__init__`: each `kwargs.get(key, default)`
becomes an `Option` argument read with `getD`. -/
def Pretrainer.init (kw_num_epochs : Option Nat) (kw_validation_split : Option Rat)
    (kw_early_stopping : Option Bool) (kw_patience : Option Nat) : Pretrainer δ where
  num_epochs := kw_num_epochs.getD 30
  validation_split := kw_validation_split.getD (1 / 10)
  early_stopping := kw_early_stopping.getD true
  patience := kw_patience.getD 3
  loss := "categorical_crossentropy"
  dataset := none
  loadCalls := 0

/-- The base class body of `_load_dataset`: `raise NotImplementedError`.
A concrete subclass overrides it, so `train` and `get_dataset` take the
effective `_load_dataset` body as a parameter; passing this value runs the
abstract base class. -/
def notImplementedLoadDataset {δ : Type} : Except PretrainError δ :=
  .error (.notImplemented "_load_dataset")

/-- The base class body of `_get_model`: `raise NotImplementedError`. -/
def notImplementedGetModel {μ : Type} : Except PretrainError μ :=
  .error (.notImplemented "_get_model")

/-- Embedding of `Pretrainer.get_dataset`:

    if self.dataset is None:
        self.dataset = self._load_dataset()
    return self.dataset

`load` is the effective `_load_dataset` body.  The ghost counter
`loadCalls` ticks exactly when `_load_dataset` is invoked. -/
def Pretrainer.get_dataset (p : Pretrainer δ) (load : Except PretrainError δ) :
    Except PretrainError (δ × Pretrainer δ) :=
  match p.dataset with
  | some d => .ok (d, p)
  | none =>
    match load with
    | .ok d => .ok (d, { p with dataset := some d, loadCalls := p.loadCalls + 1 })
    | .error e => .error e

/-- Embedding of `Pretrainer.fit_data_indexer`:

    dataset = self.get_dataset()
    data_indexer.fit_word_dictionary(dataset)

`fit_word_dictionary` is the external indexer collaborator (state-passing:
it returns the updated indexer). -/
def Pretrainer.fit_data_indexer (p : Pretrainer δ) (load : Except PretrainError δ)
    (fit_word_dictionary : ι → δ → ι) (data_indexer : ι) :
    Except PretrainError (ι × Pretrainer δ) :=
  match p.get_dataset load with
  | .ok (d, p') => .ok (fit_word_dictionary data_indexer d, p')
  | .error e => .error e

/-- Embedding of the `fit_kwargs` dictionary built in `train`:

    fit_kwargs = {'nb_epoch': self.num_epochs}
    if self.validation_split > 0.0:
        fit_kwargs['validation_split'] = self.validation_split
    if self.early_stopping:
        early_stopping = EarlyStopping(monitor='val_loss', patience=self.patience)
        fit_kwargs['callbacks'] = [early_stopping]
-/
def Pretrainer.fit_kwargs (p : Pretrainer δ) : FitKwargs :=
  let base : FitKwargs := { nb_epoch := p.num_epochs, validation_split := none, callbacks := none }
  let withVal : FitKwargs :=
    if p.validation_split > 0 then { base with validation_split := some p.validation_split }
    else base
  if p.early_stopping then
    { withVal with callbacks := some [{ monitor := "val_loss", patience := p.patience }] }
  else withVal

/-- The external collaborator surface `train` calls into, in source order:
`dataset.to_indexed_dataset(self.solver.data_indexer)`,
`indexed_dataset.pad_instances(self.solver._get_max_lengths())` (the
solver's indexer and max lengths are already applied inside these two
functions, since this file never looks at them separately), and
`indexed_dataset.as_training_data()`. -/
structure Collab (δ ξ α β : Type) where
  to_indexed_dataset : δ → ξ
  pad_instances : ξ → ξ
  as_training_data : ξ → List (ExampleInput α) × List β

/-- The steps of `train`, recorded in execution order so a theorem can state
that a failure happens before a given step. -/
inductive TrainStep where
  | getDataset
  | toIndexedDataset
  | padInstances
  | shapeData
  | buildModel
  | compileModel
  | fitModel
deriving DecidableEq, Repr

/-- Everything a completed `train` handed to Keras: the compile arguments
and the `model.fit(inputs, labels, **fit_kwargs)` call. -/
structure FitCall (α β : Type) where
  compile : CompileArgs
  inputs : ShapedInputs α
  labels : List β
  kwargs : FitKwargs
deriving DecidableEq, Repr

/-- Embedding of `Pretrainer.train`, step by step:

    dataset = self.get_dataset()
    indexed_dataset = dataset.to_indexed_dataset(self.solver.data_indexer)
    indexed_dataset.pad_instances(self.solver._get_max_lengths())
    inputs, labels = indexed_dataset.as_training_data()
    ... shaping (see shapeInputs / shapeLabels) ...
    model = self._get_model()
    model.summary()
    model.compile(loss=self.loss, optimizer='adam', metrics=['accuracy'])
    ... fit_kwargs (see Pretrainer.fit_kwargs) ...
    model.fit(inputs, labels, **fit_kwargs)

`load` and `get_model` are the effective bodies of the abstract methods
`_load_dataset` and `_get_model`.  The result carries the model together
with the record of what was passed to compile/fit, the post-call `self`
state, and the list of steps that completed. -/
def Pretrainer.train [Inhabited α] (p : Pretrainer δ) (load : Except PretrainError δ)
    (get_model : Except PretrainError μ) (c : Collab δ ξ α β) :
    Except PretrainError (μ × FitCall α β × Pretrainer δ) × List TrainStep :=
  match p.get_dataset load with
  | .error e => (.error e, [])
  | .ok (dataset, p') =>
    let indexed_dataset := c.to_indexed_dataset dataset
    let indexed_dataset := c.pad_instances indexed_dataset
    let (inputs, labels) := c.as_training_data indexed_dataset
    match shapeInputs inputs with
    | .error e => (.error e, [.getDataset, .toIndexedDataset, .padInstances])
    | .ok shaped =>
      match get_model with
      | .error e =>
        (.error e, [.getDataset, .toIndexedDataset, .padInstances, .shapeData])
      | .ok model =>
        (.ok (model,
              { compile := { loss := p'.loss, optimizer := "adam", metrics := ["accuracy"] }
                inputs := shaped
                labels := shapeLabels labels
                kwargs := p'.fit_kwargs },
              p'),
         [.getDataset, .toIndexedDataset, .padInstances, .shapeData,
          .buildModel, .compileModel, .fitModel])

/-!
Modelled collaborators.  The optimization engine (Keras) and the Python
object heap are outside the source file; the claims about early-stopping
semantics and in-place parameter sharing are settled against the following
models, written from the spec's description of those collaborators.
-/

/-- Modelled from the spec: the stopping-policy state machine of the
optimization engine's `EarlyStopping(monitor='val_loss', patience)`
callback inside `model.fit`, which the source file only constructs and
hands over.  Per the spec: a tracked best-value-so-far, a non-improvement
counter reset on improvement, and a stop once the counter reaches
`patience`; the model state at the moment of termination is kept (no
rollback).  Arguments: `best` is the best validation loss seen so far,
`wait` the current non-improvement count, `epochsDone` the epochs already
run, `m` the current model state, `step` advances the model state by one
epoch given that epoch's validation loss, and the list holds the validation
loss each further epoch would report.  Returns the final model state and
the number of epochs actually run. -/
def fitLoopGo (patience : Nat) (step : μ → Rat → μ) (best : Option Rat) (wait : Nat)
    (epochsDone : Nat) (m : μ) : List Rat → μ × Nat
  | [] => (m, epochsDone)
  | l :: ls =>
    let m' := step m l
    let improved := match best with
      | none => true
      | some b => decide (l < b)
    if improved then fitLoopGo patience step (some l) 0 (epochsDone + 1) m' ls
    else if patience ≤ wait + 1 then (m', epochsDone + 1)
    else fitLoopGo patience step best (wait + 1) (epochsDone + 1) m' ls

/-- Modelled from the spec: the optimization engine's fit loop.  With early
stopping enabled it runs `fitLoopGo` from a fresh callback state; without it
every budgeted epoch runs.  `losses` has one entry per budgeted epoch: the
validation loss that epoch would report. -/
def fitLoop (patience : Nat) (early_stopping : Bool) (step : μ → Rat → μ) (m : μ)
    (losses : List Rat) : μ × Nat :=
  if early_stopping then fitLoopGo patience step none 0 0 m losses
  else (losses.foldl step m, losses.length)

/-!
Heap model for the shared-component invariant (claim C1).  Python object
identity becomes an explicit heap: a reference is an index into a list of
cells, one cell per component, holding that component's parameters.
-/

/-- A reference to a component object on the heap. -/
abbrev Ref := Nat

/-- Modelled from the spec: the Python object heap holding every trainable
component's parameters, one cell per component object; a `Ref` is an object
identity. -/
structure Heap (π : Type) where
  cells : List π
deriving DecidableEq, Repr

/-- Parameters currently stored in the component `r` points to (`d` is a
dummy default for dangling references; every theorem keeps references in
bounds). -/
def Heap.get (h : Heap π) (r : Ref) (d : π) : π := h.cells.getD r d

/-- Constructing a fresh component object: allocates a new cell holding the
construction-time parameters and returns its (new) identity. -/
def Heap.alloc (h : Heap π) (v : π) : Ref × Heap π :=
  (h.cells.length, ⟨h.cells ++ [v]⟩)

/-- The owning solver, as claim C1 needs it: a set of named attributes each
holding a reference to a component object. -/
structure SolverAttrs where
  attrs : List (String × Ref)

/-- The pretraining model, as wired by a concrete task's `_get_model`: the
references of the component objects it reuses. -/
structure PretrainingModel where
  layerRefs : List Ref

/-- Modelled from the spec: the optimization loop's effect on parameters
during `model.fit` — every component wired into the model has its
parameters updated in place (by reference, through its existing cell);
no cell is allocated, moved or copied, and unwired cells are untouched.
`upd` is the abstract parameter update the loop applies. -/
def fitUpdate (upd : π → π) (m : PretrainingModel) (h : Heap π) : Heap π :=
  ⟨(h.cells.enum).map (fun c => if c.1 ∈ m.layerRefs then upd c.2 else c.2)⟩

/-- Modelled from the spec: the heap-level effect of a concrete task's
`train()` — `_get_model` wires a model from the solver's components and the
fit loop updates the wired components in place. -/
def trainHeap (upd : π → π) (solver : SolverAttrs)
    (build_model : SolverAttrs → PretrainingModel) (h : Heap π) : Heap π :=
  fitUpdate upd (build_model solver) h

/-- A concrete instantiation of the collaborator surface, used to
instantiate universally quantified theorems on a closed run: the dataset
and indexed dataset are trivial, and `as_training_data` yields two
single-input examples with labels in order. -/
def demoCollab : Collab Unit Unit Nat Nat where
  to_indexed_dataset := fun _ => ()
  pad_instances := fun x => x
  as_training_data := fun _ => ([.single 1, .single 2], [0, 1])

/-- A concrete collaborator whose examples are 2-tuples, for closed runs
through the multi-input branch. -/
def demoCollabTuple : Collab Unit Unit Nat Nat where
  to_indexed_dataset := fun _ => ()
  pad_instances := fun x => x
  as_training_data := fun _ => ([.tuple [1, 2], .tuple [3, 4]], [0, 1])

/-- The default-constructed task over a `Nat` dataset, used by closed
witnesses. -/
def p0 : Pretrainer Nat := Pretrainer.init none none none none

/-- A concrete parameter update for closed heap runs: increment. -/
def demoUpd : Int → Int := fun x => x + 1

/-- A concrete solver holding one named component, at heap cell 0. -/
def demoSolver : SolverAttrs := { attrs := [("embedding", 0)] }

/-- A concrete `_get_model` wiring every solver component into the
pretraining model. -/
def demoBuildModel : SolverAttrs → PretrainingModel :=
  fun s => { layerRefs := s.attrs.map Prod.snd }

/-- A concrete heap: one component whose parameters are `5`. -/
def demoHeap : Heap Int := { cells := [5] }

/-!
Theorems.  Helper lemmas first, then one theorem per claim (with a closed
witness for every theorem that has a hypothesis).
-/

/-- The fit loop's in-place update allocates no cells: the heap keeps its
size (components are mutated, never replaced by copies). -/
theorem fitUpdate_length (upd : π → π) (m : PretrainingModel) (h : Heap π) :
    (fitUpdate upd m h).cells.length = h.cells.length := by
  simp [fitUpdate]

/-- Pointwise effect of the fit loop's in-place update: a wired cell holds
the updated parameters, an unwired cell is untouched. -/
theorem fitUpdate_get (upd : π → π) (m : PretrainingModel) (h : Heap π) (r : Ref)
    (d : π) (hr : r < h.cells.length) :
    (fitUpdate upd m h).get r d
      = if r ∈ m.layerRefs then upd (h.get r d) else h.get r d := by
  unfold fitUpdate Heap.get
  simp only [List.getD_eq_getElem?_getD, List.getElem?_map]
  rw [List.getElem?_enum]
  cases hcell : h.cells[r]? with
  | none =>
    exact absurd (List.getElem?_eq_some_iff.mpr ⟨hr, rfl⟩) (by simp [hcell])
  | some a =>
    simp

/-- `get_dataset` never changes the configuration fields of `self`; it only
fills the dataset cache. -/
theorem get_dataset_ok_fields (p : Pretrainer δ) (load : Except PretrainError δ)
    (d : δ) (q : Pretrainer δ) (h : p.get_dataset load = .ok (d, q)) :
    q.num_epochs = p.num_epochs ∧ q.validation_split = p.validation_split ∧
    q.early_stopping = p.early_stopping ∧ q.patience = p.patience ∧ q.loss = p.loss := by
  unfold Pretrainer.get_dataset at h
  cases hd : p.dataset with
  | some d0 =>
    rw [hd] at h
    simp only [Except.ok.injEq, Prod.mk.injEq] at h
    rw [← h.2]
    exact ⟨rfl, rfl, rfl, rfl, rfl⟩
  | none =>
    rw [hd] at h
    cases load with
    | ok d0 =>
      simp only [Except.ok.injEq, Prod.mk.injEq] at h
      rw [← h.2]
      exact ⟨rfl, rfl, rfl, rfl, rfl⟩
    | error e => simp at h

/-- `fit_kwargs` depends only on the configuration fields. -/
theorem fit_kwargs_fields (p q : Pretrainer δ) (h1 : q.num_epochs = p.num_epochs)
    (h2 : q.validation_split = p.validation_split)
    (h3 : q.early_stopping = p.early_stopping) (h4 : q.patience = p.patience) :
    q.fit_kwargs = p.fit_kwargs := by
  unfold Pretrainer.fit_kwargs
  rw [h1, h2, h3, h4]

/-- The `validation_split` entry of the fit kwargs, in closed form. -/
theorem fit_kwargs_validation_split (p : Pretrainer δ) :
    p.fit_kwargs.validation_split =
      if 0 < p.validation_split then some p.validation_split else none := by
  unfold Pretrainer.fit_kwargs
  by_cases hv : 0 < p.validation_split <;> by_cases he : p.early_stopping <;>
    simp [hv, he]

/-- The `callbacks` entry of the fit kwargs, in closed form. -/
theorem fit_kwargs_callbacks (p : Pretrainer δ) :
    p.fit_kwargs.callbacks =
      if p.early_stopping then some [{ monitor := "val_loss", patience := p.patience }]
      else none := by
  unfold Pretrainer.fit_kwargs
  by_cases hv : 0 < p.validation_split <;> by_cases he : p.early_stopping <;>
    simp [hv, he]

/-- Inversion of a successful `train` run: the kwargs handed to `fit` are
exactly `fit_kwargs` of the caller's configuration. -/
theorem train_ok_fit_kwargs [Inhabited α] (p : Pretrainer δ)
    (load : Except PretrainError δ) (get_model : Except PretrainError μ)
    (c : Collab δ ξ α β) (m : μ) (fc : FitCall α β) (p' : Pretrainer δ)
    (tr : List TrainStep)
    (htr : p.train load get_model c = (.ok (m, fc, p'), tr)) :
    fc.kwargs = p.fit_kwargs := by
  unfold Pretrainer.train at htr
  cases hgd : p.get_dataset load with
  | error e => rw [hgd] at htr; simp at htr
  | ok v =>
    obtain ⟨d, p1⟩ := v
    rw [hgd] at htr
    simp only at htr
    cases hsi : shapeInputs (c.as_training_data (c.pad_instances (c.to_indexed_dataset d))).1
        (α := α) with
    | error e => rw [hsi] at htr; simp at htr
    | ok shaped =>
      rw [hsi] at htr
      cases get_model with
      | error e => simp at htr
      | ok model =>
        simp only [Except.ok.injEq, Prod.mk.injEq] at htr
        obtain ⟨⟨-, hfc, -⟩, -⟩ := htr
        rw [← hfc]
        obtain ⟨h1, h2, h3, h4, -⟩ := get_dataset_ok_fields p load d p1 hgd
        exact fit_kwargs_fields p p1 h1 h2 h3 h4

/-- C8: a task constructed with no keyword arguments has epoch budget 30,
validation fraction 0.1, early stopping enabled, patience 3, the
categorical cross-entropy objective identifier, and an unloaded dataset
cache; and each of `num_epochs`, `validation_split`, `early_stopping`,
`patience` can be overridden individually at construction, leaving every
other field at its default. -/
theorem claim_C8 :
    ((Pretrainer.init none none none none : Pretrainer Unit)
      = { num_epochs := 30, validation_split := 1 / 10, early_stopping := true,
          patience := 3, loss := "categorical_crossentropy", dataset := none,
          loadCalls := 0 }) ∧
    (∀ n : Nat, (Pretrainer.init (some n) none none none : Pretrainer Unit)
      = { Pretrainer.init none none none none with num_epochs := n }) ∧
    (∀ v : Rat, (Pretrainer.init none (some v) none none : Pretrainer Unit)
      = { Pretrainer.init none none none none with validation_split := v }) ∧
    (∀ b : Bool, (Pretrainer.init none none (some b) none : Pretrainer Unit)
      = { Pretrainer.init none none none none with early_stopping := b }) ∧
    (∀ k : Nat, (Pretrainer.init none none none (some k) : Pretrainer Unit)
      = { Pretrainer.init none none none none with patience := k }) :=
  ⟨rfl, fun _ => rfl, fun _ => rfl, fun _ => rfl, fun _ => rfl⟩

/-- C5: with `validation_split = 0.0`, a successful `train` run passes no
`validation_split` argument to the optimization engine's fit call. -/
theorem claim_C5 {δ ξ α β μ : Type} [Inhabited α] (p : Pretrainer δ)
    (hv : p.validation_split = 0)
    (load : Except PretrainError δ) (get_model : Except PretrainError μ)
    (c : Collab δ ξ α β) (m : μ) (fc : FitCall α β) (p' : Pretrainer δ)
    (tr : List TrainStep)
    (htr : p.train load get_model c = (.ok (m, fc, p'), tr)) :
    fc.kwargs.validation_split = none := by
  rw [train_ok_fit_kwargs p load get_model c m fc p' tr htr,
    fit_kwargs_validation_split, hv]
  simp

/-- Closed witness for C5: a concrete run with `validation_split = 0`. -/
theorem claim_C5_witness :
    ({ compile := { loss := "categorical_crossentropy", optimizer := "adam",
                    metrics := ["accuracy"] }
       inputs := .one [.single 1, .single 2]
       labels := [0, 1]
       kwargs := { nb_epoch := 30, validation_split := none,
                   callbacks := some [{ monitor := "val_loss", patience := 3 }] } }
      : FitCall Nat Nat).kwargs.validation_split = none :=
  claim_C5 (Pretrainer.init none (some 0) none none) (by decide)
    (.ok ()) (.ok ()) demoCollab () _
    { num_epochs := 30, validation_split := 0, early_stopping := true, patience := 3,
      loss := "categorical_crossentropy", dataset := some (), loadCalls := 1 }
    [.getDataset, .toIndexedDataset, .padInstances, .shapeData,
     .buildModel, .compileModel, .fitModel]
    (by decide)

/-- C6: with `early_stopping = false`, a successful `train` run passes no
stopping-policy callbacks to the optimization engine's fit call, regardless
of the configured `patience`. -/
theorem claim_C6 {δ ξ α β μ : Type} [Inhabited α] (p : Pretrainer δ)
    (he : p.early_stopping = false)
    (load : Except PretrainError δ) (get_model : Except PretrainError μ)
    (c : Collab δ ξ α β) (m : μ) (fc : FitCall α β) (p' : Pretrainer δ)
    (tr : List TrainStep)
    (htr : p.train load get_model c = (.ok (m, fc, p'), tr)) :
    fc.kwargs.callbacks = none := by
  rw [train_ok_fit_kwargs p load get_model c m fc p' tr htr,
    fit_kwargs_callbacks, he]
  simp

/-- Closed witness for C6: a concrete run with `early_stopping = false` and
a (nondefault) `patience` of 7. -/
theorem claim_C6_witness :
    ({ compile := { loss := "categorical_crossentropy", optimizer := "adam",
                    metrics := ["accuracy"] }
       inputs := .one [.single 1, .single 2]
       labels := [0, 1]
       kwargs := { nb_epoch := 30, validation_split := none,
                   callbacks := none } }
      : FitCall Nat Nat).kwargs.callbacks = none :=
  claim_C6 (Pretrainer.init none (some 0) (some false) (some 7)) (by decide)
    (.ok ()) (.ok ()) demoCollab () _
    { num_epochs := 30, validation_split := 0, early_stopping := false,
      patience := 7, loss := "categorical_crossentropy", dataset := some (),
      loadCalls := 1 }
    [.getDataset, .toIndexedDataset, .padInstances, .shapeData,
     .buildModel, .compileModel, .fitModel]
    (by decide)

/-- C9: with `early_stopping = true` and `validation_split = 0.0`, a
successful `train` run still passes the early-stopping callback monitoring
validation loss — the callback is gated only on the `early_stopping` flag,
independently of `validation_split` (for which no argument is passed). -/
theorem claim_C9 {δ ξ α β μ : Type} [Inhabited α] (p : Pretrainer δ)
    (he : p.early_stopping = true) (hv : p.validation_split = 0)
    (load : Except PretrainError δ) (get_model : Except PretrainError μ)
    (c : Collab δ ξ α β) (m : μ) (fc : FitCall α β) (p' : Pretrainer δ)
    (tr : List TrainStep)
    (htr : p.train load get_model c = (.ok (m, fc, p'), tr)) :
    fc.kwargs.callbacks = some [{ monitor := "val_loss", patience := p.patience }] ∧
    fc.kwargs.validation_split = none := by
  rw [train_ok_fit_kwargs p load get_model c m fc p' tr htr,
    fit_kwargs_callbacks, fit_kwargs_validation_split, he, hv]
  simp

/-- Closed witness for C9: a concrete run with `early_stopping = true` and
`validation_split = 0`. -/
theorem claim_C9_witness :
    ({ compile := { loss := "categorical_crossentropy", optimizer := "adam",
                    metrics := ["accuracy"] }
       inputs := .one [.single 1, .single 2]
       labels := [0, 1]
       kwargs := { nb_epoch := 30, validation_split := none,
                   callbacks := some [{ monitor := "val_loss", patience := 3 }] } }
      : FitCall Nat Nat).kwargs.callbacks
        = some [{ monitor := "val_loss", patience := 3 }] ∧
    ({ compile := { loss := "categorical_crossentropy", optimizer := "adam",
                    metrics := ["accuracy"] }
       inputs := .one [.single 1, .single 2]
       labels := [0, 1]
       kwargs := { nb_epoch := 30, validation_split := none,
                   callbacks := some [{ monitor := "val_loss", patience := 3 }] } }
      : FitCall Nat Nat).kwargs.validation_split = none :=
  claim_C9 (Pretrainer.init none (some 0) (some true) none) (by decide) (by decide)
    (.ok ()) (.ok ()) demoCollab () _
    { num_epochs := 30, validation_split := 0, early_stopping := true, patience := 3,
      loss := "categorical_crossentropy", dataset := some (), loadCalls := 1 }
    [.getDataset, .toIndexedDataset, .padInstances, .shapeData,
     .buildModel, .compileModel, .fitModel]
    (by decide)

/-- C2: the first `get_dataset()` call on a task with an unloaded cache
invokes `_load_dataset` exactly once (the ghost counter ticks by one) and
caches the result; on any task whose cache already holds `d`, `get_dataset`
returns the identical cached dataset with the state (counter included)
unchanged, whatever the loader body would do — so any number of further
calls return the same object with no further load — and `fit_data_indexer`
feeds exactly that memoized dataset to the indexer, again without
reloading. -/
theorem claim_C2 {δ ι : Type} (p : Pretrainer δ) (hp : p.dataset = none) (d : δ)
    (load' : Except PretrainError δ) (q : Pretrainer δ) (hq : q.dataset = some d)
    (fit_word_dictionary : ι → δ → ι) (data_indexer : ι) :
    p.get_dataset (.ok d)
      = .ok (d, { p with dataset := some d, loadCalls := p.loadCalls + 1 }) ∧
    q.get_dataset load' = .ok (d, q) ∧
    q.fit_data_indexer load' fit_word_dictionary data_indexer
      = .ok (fit_word_dictionary data_indexer d, q) := by
  refine ⟨?_, ?_, ?_⟩
  · unfold Pretrainer.get_dataset
    rw [hp]
  · unfold Pretrainer.get_dataset
    rw [hq]
  · unfold Pretrainer.fit_data_indexer Pretrainer.get_dataset
    rw [hq]

/-- Closed witness for C2, on a fresh default-constructed task over a `Nat`
dataset. -/
theorem claim_C2_witness :
    p0.get_dataset (.ok 7)
      = .ok (7, { p0 with dataset := some 7, loadCalls := p0.loadCalls + 1 }) ∧
    ({ p0 with dataset := some 7 }).get_dataset notImplementedLoadDataset
      = .ok (7, { p0 with dataset := some 7 }) ∧
    ({ p0 with dataset := some 7 }).fit_data_indexer
        notImplementedLoadDataset (fun (a : Nat) (b : Nat) => a + b) 100
      = .ok (107, { p0 with dataset := some 7 }) :=
  claim_C2 p0 rfl 7 notImplementedLoadDataset
    { p0 with dataset := some 7 } rfl (fun a b => a + b) 100

/-- C10: the input-shaping step of `train` reads `inputs[0]`, so on an
empty inputs sequence it fails with the out-of-bounds `IndexError`; under
the precondition that the inputs sequence is non-empty the access is in
bounds and shaping succeeds; and the single-array versus multi-array
routing decision depends only on the first example's input shape (the tail
of the sequence cannot change which branch is taken). -/
theorem claim_C10 {α : Type} [Inhabited α] (inputs : List (ExampleInput α))
    (hne : inputs ≠ []) (x : ExampleInput α) (xs ys : List (ExampleInput α)) :
    shapeInputs ([] : List (ExampleInput α)) = .error .indexError ∧
    (shapeInputs inputs).isOk = true ∧
    (shapeInputs (x :: xs)).map ShapedInputs.isMany
      = (shapeInputs (x :: ys)).map ShapedInputs.isMany := by
  refine ⟨rfl, ?_, ?_⟩
  · cases inputs with
    | nil => exact absurd rfl hne
    | cons first rest =>
      unfold shapeInputs
      cases hft : first.isTuple <;> simp [hft, Except.isOk, Except.toBool]
  · unfold shapeInputs
    cases hxt : x.isTuple <;> simp [hxt, Except.map, ShapedInputs.isMany]

/-- Closed witness for C10, at a singleton single-input list and first
examples of each shape. -/
theorem claim_C10_witness :
    shapeInputs ([] : List (ExampleInput Nat)) = .error .indexError ∧
    (shapeInputs [ExampleInput.single (5 : Nat)]).isOk = true ∧
    (shapeInputs (ExampleInput.tuple [1, 2] :: [ExampleInput.tuple [3, 4]])).map
        ShapedInputs.isMany
      = (shapeInputs (ExampleInput.tuple [(1 : Nat), 2] :: [])).map
        ShapedInputs.isMany :=
  claim_C10 [ExampleInput.single 5] (by decide) (ExampleInput.tuple [1, 2])
    [ExampleInput.tuple [3, 4]] []

/-- C7: with the abstract `_load_dataset` not overridden, `train()` (and
likewise `fit_data_indexer`) fails with the NotImplemented error before any
dataset indexing or input shaping occurs (the completed-step trace is
empty); with a working loader but the abstract `_get_model` not overridden,
`train()` fails with the NotImplemented error exactly when it reaches the
model-building step — indexing, padding and shaping have completed, and
neither model building, compilation nor fitting appears in the trace.  Each
abstract body is consulted once and the error propagates; nothing is
retried. -/
theorem claim_C7 {δ ξ α β μ ι : Type} [Inhabited α] (p : Pretrainer δ)
    (hp : p.dataset = none) (c : Collab δ ξ α β) (d : δ)
    (hne : (c.as_training_data (c.pad_instances (c.to_indexed_dataset d))).1
      ≠ ([] : List (ExampleInput α)))
    (gm : Except PretrainError μ)
    (fit_word_dictionary : ι → δ → ι) (data_indexer : ι) :
    p.train notImplementedLoadDataset gm c
      = (.error (.notImplemented "_load_dataset"), ([] : List TrainStep)) ∧
    p.fit_data_indexer notImplementedLoadDataset fit_word_dictionary data_indexer
      = .error (.notImplemented "_load_dataset") ∧
    p.train (.ok d) (notImplementedGetModel (μ := μ)) c
      = (.error (.notImplemented "_get_model"),
         [TrainStep.getDataset, .toIndexedDataset, .padInstances, .shapeData]) := by
  refine ⟨?_, ?_, ?_⟩
  · unfold Pretrainer.train Pretrainer.get_dataset notImplementedLoadDataset
    rw [hp]
  · unfold Pretrainer.fit_data_indexer Pretrainer.get_dataset notImplementedLoadDataset
    rw [hp]
  · unfold Pretrainer.train Pretrainer.get_dataset
    rw [hp]
    cases hin : (c.as_training_data (c.pad_instances (c.to_indexed_dataset d))).1 with
    | nil => exact absurd hin hne
    | cons first rest =>
      unfold shapeInputs notImplementedGetModel
      cases hft : first.isTuple <;> simp [hin, hft]

/-- Closed witness for C7: the abstract task over the demo collaborator. -/
theorem claim_C7_witness :
    (Pretrainer.init none none none none : Pretrainer Unit).train
        notImplementedLoadDataset (.ok ()) demoCollab
      = (.error (.notImplemented "_load_dataset"), ([] : List TrainStep)) ∧
    (Pretrainer.init none none none none : Pretrainer Unit).fit_data_indexer
        notImplementedLoadDataset (fun (a : Nat) (_ : Unit) => a) 0
      = .error (.notImplemented "_load_dataset") ∧
    (Pretrainer.init none none none none : Pretrainer Unit).train (.ok ())
        (notImplementedGetModel (μ := Unit)) demoCollab
      = (.error (.notImplemented "_get_model"),
         [TrainStep.getDataset, .toIndexedDataset, .padInstances, .shapeData]) :=
  claim_C7 (Pretrainer.init none none none none) rfl demoCollab () (by decide)
    (.ok ()) (fun a _ => a) 0

/-- Folding `min` over rows of constant length `N`, starting from `N`,
stays at `N`. -/
theorem foldl_min_const (N : Nat) (rs : List (List α))
    (h : ∀ r ∈ rs, r.length = N) :
    rs.foldl (fun m l => min m l.length) N = N := by
  induction rs with
  | nil => rfl
  | cons r rs ih =>
    have hr : r.length = N := h r (List.mem_cons_self r rs)
    have hrs : ∀ r' ∈ rs, r'.length = N := fun r' hm => h r' (List.mem_cons_of_mem r hm)
    simp only [List.foldl_cons, hr, min_self]
    exact ih hrs

/-- On a non-empty family of rows all of length `N`, Python's `zip`
truncation point is `N`. -/
theorem pyMinLen_const (N : Nat) (rows : List (List α)) (hne : rows ≠ [])
    (h : ∀ r ∈ rows, r.length = N) :
    pyMinLen rows = N := by
  cases rows with
  | nil => exact absurd rfl hne
  | cons r rs =>
    have hr : r.length = N := h r (List.mem_cons_self r rs)
    have hrs : ∀ r' ∈ rs, r'.length = N := fun r' hm => h r' (List.mem_cons_of_mem r hm)
    simp only [pyMinLen]
    rw [hr]
    exact foldl_min_const N rs hrs

/-- Closed form of `pyZipStar` on a non-empty family of rows all of length
`N`: the transpose, slot by slot. -/
theorem pyZipStar_const [Inhabited α] (N : Nat) (rows : List (List α)) (hne : rows ≠ [])
    (h : ∀ r ∈ rows, r.length = N) :
    pyZipStar rows
      = (List.range N).map (fun j => rows.map (fun r => r.getD j default)) := by
  unfold pyZipStar
  rw [pyMinLen_const N rows hne h]

/-- C3: for a non-empty training-data sequence, if every example's input is
an `N`-tuple of aligned input slots then `train`'s shaping step produces
`N` arrays, the `j`-th of which lists, in example order, every example's
`j`-th slot (`e.parts.getD j default` is exactly that slot: `parts` of an
`N`-tuple is its slot list and `j` ranges over `range N`); if instead every
example carries a single input the inputs become one contiguous array whose
`i`-th row is the `i`-th example's input, unchanged; and the labels are
always shaped into a single order-preserving array. -/
theorem claim_C3 {α β : Type} [Inhabited α] (N : Nat)
    (inputsT : List (ExampleInput α)) (hneT : inputsT ≠ [])
    (ht : ∀ e ∈ inputsT, ∃ t, e = ExampleInput.tuple t ∧ t.length = N)
    (inputsS : List (ExampleInput α)) (hneS : inputsS ≠ [])
    (hs : ∀ e ∈ inputsS, e.isTuple = false) (labels : List β) :
    shapeInputs inputsT
      = .ok (.many ((List.range N).map
          (fun j => inputsT.map (fun e => e.parts.getD j default)))) ∧
    shapeInputs inputsS = .ok (.one inputsS) ∧
    shapeLabels labels = labels := by
  refine ⟨?_, ?_, rfl⟩
  · cases hin : inputsT with
    | nil => exact absurd hin hneT
    | cons first rest =>
      have hrows : ∀ r ∈ (first :: rest).map ExampleInput.parts, r.length = N := by
        intro r hr
        rw [List.mem_map] at hr
        obtain ⟨e, he, hre⟩ := hr
        obtain ⟨t, het, htN⟩ := ht e (hin ▸ he)
        rw [← hre, het]
        exact htN
      have hfirst : first.isTuple = true := by
        obtain ⟨t, het, -⟩ := ht first (hin ▸ List.mem_cons_self first rest)
        rw [het]
        rfl
      simp only [shapeInputs, hfirst, if_true]
      rw [pyZipStar_const N ((first :: rest).map ExampleInput.parts)
        (by simp) hrows]
      simp only [List.map_map]
      rfl
  · cases hin : inputsS with
    | nil => exact absurd hin hneS
    | cons first rest =>
      have hfirst : first.isTuple = false :=
        hs first (hin ▸ List.mem_cons_self first rest)
      simp [shapeInputs, hfirst]

/-- Closed witness for C3: two 2-tuple examples transpose into two arrays
of the per-example slots; two single-input examples stay one array; labels
pass through. -/
theorem claim_C3_witness :
    shapeInputs [ExampleInput.tuple [(10 : Nat), 20], ExampleInput.tuple [30, 40]]
      = .ok (.many [[10, 30], [20, 40]]) ∧
    shapeInputs [ExampleInput.single (1 : Nat), ExampleInput.single 2]
      = .ok (.one [ExampleInput.single 1, ExampleInput.single 2]) ∧
    shapeLabels [(7 : Nat), 8] = [7, 8] := by
  have h := claim_C3 2 [ExampleInput.tuple [(10 : Nat), 20], ExampleInput.tuple [30, 40]]
    (by decide)
    (by intro e he
        simp only [List.mem_cons, List.not_mem_nil, or_false] at he
        rcases he with h1 | h2
        · exact ⟨[10, 20], h1, rfl⟩
        · exact ⟨[30, 40], h2, rfl⟩)
    [ExampleInput.single 1, ExampleInput.single 2] (by decide)
    (by decide) [(7 : Nat), 8]
  exact ⟨h.1, h.2.1, h.2.2⟩

/-- The modelled fit loop never runs more epochs than there are budgeted
epochs. -/
theorem fitLoopGo_epochs_le {μ : Type} (patience : Nat) (step : μ → Rat → μ)
    (losses : List Rat) : ∀ (best : Option Rat) (wait epochsDone : Nat) (m : μ),
    (fitLoopGo patience step best wait epochsDone m losses).2
      ≤ epochsDone + losses.length := by
  induction losses with
  | nil =>
    intro best wait epochsDone m
    simp [fitLoopGo]
  | cons l ls ih =>
    intro best wait epochsDone m
    simp only [fitLoopGo, List.length_cons]
    cases best with
    | none =>
      simp only
      exact le_trans (ih (some l) 0 (epochsDone + 1) (step m l)) (by omega)
    | some b =>
      simp only
      by_cases hl : l < b
      · simp [hl]
        exact le_trans (ih (some l) 0 (epochsDone + 1) (step m l)) (by omega)
      · by_cases hw : patience ≤ wait + 1
        · simp [hl, hw]
        · simp [hl, hw]
          exact le_trans (ih (some b) (wait + 1) (epochsDone + 1) (step m l)) (by omega)

/-- C4: with `early_stopping = true`, a successful `train` run passes the
optimization engine exactly one stopping-policy callback, monitoring
`val_loss` with the configured patience; consequently (in the modelled fit
loop) with patience 2 and validation losses `[1.0, 0.9, 0.95, 0.96, 0.97]`
the loop stops after epoch 4 — fewer than the 5 budgeted epochs — and the
model state kept is exactly the state after the 4 epochs that ran (no
rollback to the best epoch, which was epoch 2); in general the loop never
exceeds the epoch budget. -/
theorem claim_C4 {δ ξ α β μ σ : Type} [Inhabited α] (p : Pretrainer δ)
    (he : p.early_stopping = true)
    (load : Except PretrainError δ) (get_model : Except PretrainError μ)
    (c : Collab δ ξ α β) (m : μ) (fc : FitCall α β) (p' : Pretrainer δ)
    (tr : List TrainStep)
    (htr : p.train load get_model c = (.ok (m, fc, p'), tr))
    (step : σ → Rat → σ) (m0 : σ) (losses : List Rat) :
    fc.kwargs.callbacks = some [{ monitor := "val_loss", patience := p.patience }] ∧
    fitLoop 2 true step m0 [1, 9/10, 19/20, 24/25, 97/100]
      = (step (step (step (step m0 1) (9/10)) (19/20)) (24/25), 4) ∧
    (4 : Nat) < 5 ∧
    (fitLoop p.patience true step m0 losses).2 ≤ losses.length := by
  refine ⟨?_, ?_, by norm_num, ?_⟩
  · rw [train_ok_fit_kwargs p load get_model c m fc p' tr htr,
      fit_kwargs_callbacks, he]
    simp
  · have h1 : ¬((19 : Rat)/20 < 9/10) := by norm_num
    have h2 : ¬((24 : Rat)/25 < 9/10) := by norm_num
    have h3 : (9 : Rat)/10 < 1 := by norm_num
    simp [fitLoop, fitLoopGo, h1, h2, h3]
  · have hb := fitLoopGo_epochs_le p.patience step losses none 0 0 m0
    simpa [fitLoop] using hb

/-- Closed witness for C4: a concrete run with `early_stopping = true`,
patience overridden to 2, a counting step function and an empty budget for
the bound conjunct. -/
theorem claim_C4_witness :
    ({ compile := { loss := "categorical_crossentropy", optimizer := "adam",
                    metrics := ["accuracy"] }
       inputs := .one [.single 1, .single 2]
       labels := [0, 1]
       kwargs := { nb_epoch := 30, validation_split := none,
                   callbacks := some [{ monitor := "val_loss", patience := 2 }] } }
      : FitCall Nat Nat).kwargs.callbacks
        = some [{ monitor := "val_loss", patience := 2 }] ∧
    fitLoop 2 true (fun (a : Nat) (_ : Rat) => a + 1) 0 [1, 9/10, 19/20, 24/25, 97/100]
      = (4, 4) ∧
    (4 : Nat) < 5 ∧
    (fitLoop 2 true (fun (a : Nat) (_ : Rat) => a + 1) 0 ([] : List Rat)).2
      ≤ ([] : List Rat).length :=
  claim_C4 (Pretrainer.init none (some 0) (some true) (some 2)) (by decide)
    (.ok ()) (.ok ()) demoCollab () _
    { num_epochs := 30, validation_split := 0, early_stopping := true, patience := 2,
      loss := "categorical_crossentropy", dataset := some (), loadCalls := 1 }
    [.getDataset, .toIndexedDataset, .padInstances, .shapeData,
     .buildModel, .compileModel, .fitModel]
    (by decide) (fun a _ => a + 1) 0 []

/-- C1: for a concrete pretraining task whose model-builder wires the
pretraining model from a component object held as a named attribute on the
owning solver (heap reference `r`), after the heap-level `train()` the same
component object — same identity `r` — carries the parameters updated by
the optimization loop; the heap has not grown (no copy was substituted for
any component); a component freshly reconstructed from the owning model is
a different object, carries its construction-time parameters rather than
the update, and the trained object still shows the updated parameters
alongside it. -/
theorem claim_C1 {π : Type} (upd : π → π) (solver : SolverAttrs)
    (build_model : SolverAttrs → PretrainingModel) (h : Heap π)
    (name : String) (r : Ref) (d w : π)
    (hattr : (name, r) ∈ solver.attrs)
    (hwired : r ∈ (build_model solver).layerRefs)
    (hr : r < h.cells.length)
    (hfresh : upd (h.get r d) ≠ w) :
    (trainHeap upd solver build_model h).get r d = upd (h.get r d) ∧
    (trainHeap upd solver build_model h).cells.length = h.cells.length ∧
    ((trainHeap upd solver build_model h).alloc w).1 ≠ r ∧
    ((trainHeap upd solver build_model h).alloc w).2.get
        ((trainHeap upd solver build_model h).alloc w).1 d = w ∧
    ((trainHeap upd solver build_model h).alloc w).2.get r d = upd (h.get r d) ∧
    ((trainHeap upd solver build_model h).alloc w).2.get
        ((trainHeap upd solver build_model h).alloc w).1 d
      ≠ ((trainHeap upd solver build_model h).alloc w).2.get r d := by
  have hlen : (trainHeap upd solver build_model h).cells.length = h.cells.length :=
    fitUpdate_length upd (build_model solver) h
  have e1 : (trainHeap upd solver build_model h).get r d = upd (h.get r d) := by
    unfold trainHeap
    rw [fitUpdate_get upd (build_model solver) h r d hr, if_pos hwired]
  have e2 : ((trainHeap upd solver build_model h).alloc w).1 ≠ r := by
    have hfst : ((trainHeap upd solver build_model h).alloc w).1
        = (trainHeap upd solver build_model h).cells.length := rfl
    intro hc
    rw [hfst, hlen] at hc
    exact absurd hc (Nat.ne_of_gt hr)
  have e3 : ((trainHeap upd solver build_model h).alloc w).2.get
      ((trainHeap upd solver build_model h).alloc w).1 d = w := by
    unfold Heap.alloc Heap.get
    simp [List.getD_eq_getElem?_getD]
  have e4 : ((trainHeap upd solver build_model h).alloc w).2.get r d
      = upd (h.get r d) := by
    rw [← e1]
    unfold Heap.alloc Heap.get
    simp only [List.getD_eq_getElem?_getD,
      List.getElem?_append_left (hlen ▸ hr)]
  refine ⟨e1, hlen, e2, e3, e4, ?_⟩
  rw [e3, e4]
  exact fun hcontra => hfresh hcontra.symm

/-- Closed witness for C1: one component at cell 0 with parameters 5, wired
through the solver's `"embedding"` attribute; training increments it in
place to 6, and reconstruction yields a distinct object back at 5. -/
theorem claim_C1_witness :
    (trainHeap demoUpd demoSolver demoBuildModel demoHeap).get 0 0 = 6 ∧
    (trainHeap demoUpd demoSolver demoBuildModel demoHeap).cells.length = 1 ∧
    ((trainHeap demoUpd demoSolver demoBuildModel demoHeap).alloc 5).1 ≠ 0 ∧
    ((trainHeap demoUpd demoSolver demoBuildModel demoHeap).alloc 5).2.get
        ((trainHeap demoUpd demoSolver demoBuildModel demoHeap).alloc 5).1 0 = 5 ∧
    ((trainHeap demoUpd demoSolver demoBuildModel demoHeap).alloc 5).2.get 0 0 = 6 ∧
    ((trainHeap demoUpd demoSolver demoBuildModel demoHeap).alloc 5).2.get
        ((trainHeap demoUpd demoSolver demoBuildModel demoHeap).alloc 5).1 0
      ≠ ((trainHeap demoUpd demoSolver demoBuildModel demoHeap).alloc 5).2.get 0 0 :=
  claim_C1 demoUpd demoSolver demoBuildModel demoHeap "embedding" 0 0 5
    (by decide) (by decide) (by decide) (by decide)

end DeepQA
